import Mathlib

/-!
# Verification of the ProtonX legal-text classification service (glue layer)

Shallow embedding of the repository's own logic:

* `src/model.py` — `LegalTextClassifier.predict` / `predict_batch`: the external
  transformer stack (tokenizer + forward pass) is abstracted as a per-text
  logits function `logits : String → List ℚ`; `torch.softmax` is modelled by
  `softmax` parametric in an exponential-like map `e : ℚ → ℚ` (the only fact
  the code relies on is `0 < e x`).  Batched inference with attention masking
  is modelled as the per-row application of the same logits function.
* `src/ocr_model.py` — the two backend post-processing routines
  (`_process_with_easyocr`, `_process_with_tesseract`) over the raw backend
  output, and the `get_ocr_processor` singleton cache as explicit state
  passing.  Python object identity is modelled by a construction counter
  (`uid`): each constructor call yields a fresh id.
* `src/api.py` — upload validation and the OCR / classification endpoints,
  with the external effects (PIL decode, OCR engine, model inference) passed
  in as `Except`-valued functions and HTTP exceptions as `Except HTTPError`.
-/

namespace ProtonxLegal

/-- Result record produced by `LegalTextClassifier.predict`
(`src/model.py` lines 103–113): predicted class index, its probability, the
full score vector, and the optional label-mapping fields. -/
structure ClassificationResult where
  predicted_class : Nat
  confidence : ℚ
  all_scores : List ℚ
  predicted_label : Option String := none
  all_labels : Option (List (String × ℚ)) := none
deriving Repr, DecidableEq

/-- `torch.softmax` over a logits row (`src/model.py` line 91), parametric in
the exponential map `e`: each weight `e x` is divided by the row sum. -/
def softmax (e : ℚ → ℚ) (logits : List ℚ) : List ℚ :=
  let w := logits.map e
  w.map (fun x => x / w.sum)

/-- Maximum of a list of rationals (0 on the empty list, which is never used
on that case). -/
def listMax : List ℚ → ℚ
  | [] => 0
  | [x] => x
  | x :: y :: t => max x (listMax (y :: t))

/-- `torch.argmax` (`src/model.py` line 94): index of the first occurrence of
the maximum element. -/
def argmax : List ℚ → Nat
  | [] => 0
  | [_] => 0
  | x :: y :: t => if x < listMax (y :: t) then argmax (y :: t) + 1 else 0

/-- `id2label.get(i, f"LABEL_{i}")` (`src/model.py` lines 110–111): lookup in
the model's index→name mapping with the default label text. -/
def lookupLabel (m : List (Nat × String)) (i : Nat) : String :=
  (m.lookup i).getD ("LABEL_" ++ toString i)

/-- `LegalTextClassifier.predict` (`src/model.py` lines 61–113) on the success
path: softmax over the logits row, argmax for the predicted class, the
probability at that index as the confidence, and the optional label fields
when the model config exposes `id2label`. -/
def predict (e : ℚ → ℚ) (logits : String → List ℚ)
    (id2label : Option (List (Nat × String))) (text : String) :
    ClassificationResult :=
  let probabilities := softmax e (logits text)
  let pc := argmax probabilities
  let conf := probabilities.getD pc 0
  match id2label with
  | none =>
      { predicted_class := pc, confidence := conf, all_scores := probabilities }
  | some m =>
      { predicted_class := pc, confidence := conf, all_scores := probabilities,
        predicted_label := some (lookupLabel m pc),
        all_labels :=
          some (probabilities.enum.map (fun p => (lookupLabel m p.1, p.2))) }

/-- `LegalTextClassifier.predict_batch` (`src/model.py` lines 119–172): the
batched forward pass yields one probability row per input text (the model is
applied with padding and attention masks, so row `i` is the softmax of the
logits of `texts[i]`), and the loop builds one result per row with the same
post-processing as `predict`. -/
def predict_batch (e : ℚ → ℚ) (logits : String → List ℚ)
    (id2label : Option (List (Nat × String))) (texts : List String) :
    List ClassificationResult :=
  let probRows := texts.map (fun t => softmax e (logits t))
  probRows.map (fun probabilities =>
    let pc := argmax probabilities
    let conf := probabilities.getD pc 0
    match id2label with
    | none =>
        { predicted_class := pc, confidence := conf, all_scores := probabilities }
    | some m =>
        { predicted_class := pc, confidence := conf, all_scores := probabilities,
          predicted_label := some (lookupLabel m pc),
          all_labels :=
            some (probabilities.enum.map (fun p => (lookupLabel m p.1, p.2))) })

/-! ## Basic lemmas about `softmax`, `listMax` and `argmax` -/

lemma map_div_sum (l : List ℚ) (c : ℚ) :
    (l.map (fun x => x / c)).sum = l.sum / c := by
  induction l with
  | nil => simp
  | cons x xs ih => simp [ih, add_div]

lemma softmax_sum (e : ℚ → ℚ) (logits : List ℚ)
    (hpos : ∀ x, 0 < e x) (hne : logits ≠ []) :
    (softmax e logits).sum = 1 := by
  unfold softmax
  rw [map_div_sum]
  have hmem : ∀ x ∈ logits.map e, 0 < x := by
    intro x hx
    rcases List.mem_map.mp hx with ⟨a, _, rfl⟩
    exact hpos a
  have hsum : 0 < (logits.map e).sum :=
    List.sum_pos _ hmem (by simpa using hne)
  exact div_self (ne_of_gt hsum)

lemma softmax_length (e : ℚ → ℚ) (logits : List ℚ) :
    (softmax e logits).length = logits.length := by
  simp [softmax]

lemma softmax_ne_nil (e : ℚ → ℚ) (logits : List ℚ) (hne : logits ≠ []) :
    softmax e logits ≠ [] := by
  simp [softmax, hne]

lemma argmax_lt_length (l : List ℚ) (hne : l ≠ []) : argmax l < l.length := by
  induction l with
  | nil => exact absurd rfl hne
  | cons x xs ih =>
      cases xs with
      | nil => simp [argmax]
      | cons y t =>
          by_cases h : x < listMax (y :: t)
          · have hlt := ih (by simp)
            simp only [List.length_cons] at hlt ⊢
            simp only [argmax, if_pos h]
            omega
          · simp [argmax, h]

lemma getD_argmax_eq_listMax (l : List ℚ) (hne : l ≠ []) :
    l.getD (argmax l) 0 = listMax l := by
  induction l with
  | nil => exact absurd rfl hne
  | cons x xs ih =>
      cases xs with
      | nil => simp [argmax, listMax]
      | cons y t =>
          by_cases h : x < listMax (y :: t)
          · simpa [argmax, h, listMax, max_eq_right (le_of_lt h)]
              using ih (by simp)
          · simp [argmax, h, listMax, max_eq_left (not_lt.mp h)]

lemma getD_le_listMax (l : List ℚ) (i : Nat) (hi : i < l.length) :
    l.getD i 0 ≤ listMax l := by
  induction l generalizing i with
  | nil => simp at hi
  | cons x xs ih =>
      cases xs with
      | nil =>
          cases i with
          | zero => simp [listMax]
          | succ j => simp at hi
      | cons y t =>
          cases i with
          | zero => simp [listMax]
          | succ j =>
              have hj : j < (y :: t).length := by
                simpa [Nat.succ_lt_succ_iff] using hi
              calc (x :: y :: t).getD (j + 1) 0
                  = (y :: t).getD j 0 := by simp
                _ ≤ listMax (y :: t) := ih j hj
                _ ≤ listMax (x :: y :: t) := by simp [listMax]

lemma predict_all_scores (e : ℚ → ℚ) (logits : String → List ℚ)
    (id2label : Option (List (Nat × String))) (text : String) :
    (predict e logits id2label text).all_scores = softmax e (logits text) := by
  cases id2label <;> rfl

lemma predict_predicted_class (e : ℚ → ℚ) (logits : String → List ℚ)
    (id2label : Option (List (Nat × String))) (text : String) :
    (predict e logits id2label text).predicted_class
      = argmax (softmax e (logits text)) := by
  cases id2label <;> rfl

lemma predict_confidence (e : ℚ → ℚ) (logits : String → List ℚ)
    (id2label : Option (List (Nat × String))) (text : String) :
    (predict e logits id2label text).confidence
      = (softmax e (logits text)).getD (argmax (softmax e (logits text))) 0 := by
  cases id2label <;> rfl

/-! ## Claim theorems for the classifier -/

/-- C1. For every non-empty input text (and any model with at least one
label, any strictly positive exponential map), `predict` returns a result
whose `all_scores` sum to 1 (exactly, in rational arithmetic — the floating
tolerance of the claim), whose `predicted_class` is an in-range index at
which `all_scores` attains its maximum (the first such index, as
`torch.argmax` returns), and whose `confidence` equals
`all_scores[predicted_class]`. -/
theorem predict_scores_spec (e : ℚ → ℚ) (logits : String → List ℚ)
    (id2label : Option (List (Nat × String))) (text : String)
    (hpos : ∀ x, 0 < e x) (hlen : logits text ≠ []) (_htext : text ≠ "") :
    (predict e logits id2label text).all_scores.sum = 1 ∧
    (predict e logits id2label text).predicted_class
        < (predict e logits id2label text).all_scores.length ∧
    (∀ i, i < (predict e logits id2label text).all_scores.length →
      (predict e logits id2label text).all_scores.getD i 0
        ≤ (predict e logits id2label text).all_scores.getD
            (predict e logits id2label text).predicted_class 0) ∧
    (predict e logits id2label text).confidence
      = (predict e logits id2label text).all_scores.getD
          (predict e logits id2label text).predicted_class 0 := by
  have hs := predict_all_scores e logits id2label text
  have hp := predict_predicted_class e logits id2label text
  have hc := predict_confidence e logits id2label text
  have hne : softmax e (logits text) ≠ [] := softmax_ne_nil e _ hlen
  refine ⟨?_, ?_, ?_, ?_⟩
  · rw [hs]; exact softmax_sum e _ hpos hlen
  · rw [hs, hp]; exact argmax_lt_length _ hne
  · intro i hi
    rw [hs, hp]
    rw [hs] at hi
    rw [getD_argmax_eq_listMax _ hne]
    exact getD_le_listMax _ i hi
  · rw [hc, hs, hp]

/-- Witness for C1 at a concrete two-label model. -/
theorem predict_scores_spec_witness :
    (predict (fun _ => 1) (fun _ => [1, 2]) none "điều 1").all_scores.sum = 1 ∧
    (predict (fun _ => 1) (fun _ => [1, 2]) none "điều 1").predicted_class
        < (predict (fun _ => 1) (fun _ => [1, 2]) none "điều 1").all_scores.length ∧
    (∀ i, i < (predict (fun _ => 1) (fun _ => [1, 2]) none "điều 1").all_scores.length →
      (predict (fun _ => 1) (fun _ => [1, 2]) none "điều 1").all_scores.getD i 0
        ≤ (predict (fun _ => 1) (fun _ => [1, 2]) none "điều 1").all_scores.getD
            (predict (fun _ => 1) (fun _ => [1, 2]) none "điều 1").predicted_class 0) ∧
    (predict (fun _ => 1) (fun _ => [1, 2]) none "điều 1").confidence
      = (predict (fun _ => 1) (fun _ => [1, 2]) none "điều 1").all_scores.getD
          (predict (fun _ => 1) (fun _ => [1, 2]) none "điều 1").predicted_class 0 :=
  predict_scores_spec (fun _ => 1) (fun _ => [1, 2]) none "điều 1"
    (fun _ => one_pos) (by decide) (by decide)

/-- C2. `predict_batch` returns exactly one result per input, in order, and
equals mapping `predict` over the inputs text by text. -/
theorem predict_batch_refines_predict (e : ℚ → ℚ) (logits : String → List ℚ)
    (id2label : Option (List (Nat × String))) (texts : List String) :
    predict_batch e logits id2label texts
        = texts.map (predict e logits id2label) ∧
    (predict_batch e logits id2label texts).length = texts.length := by
  constructor
  · simp only [predict_batch, List.map_map]
    rfl
  · simp [predict_batch]

/-! ## Python string builtins

`str.strip()` and `str.startswith()` are modelled structurally over the
character list so that concrete instances evaluate by kernel reduction. -/

/-- Whitespace test used by `str.strip()` (space, tab, newline, carriage
return cover the texts in play). -/
def isSpaceChar (c : Char) : Bool :=
  c == ' ' || c == '\t' || c == '\n' || c == '\r'

/-- Python `str.strip()`: drop leading and trailing whitespace. -/
def pyStrip (s : String) : String :=
  ⟨((s.data.dropWhile isSpaceChar).reverse.dropWhile isSpaceChar).reverse⟩

/-- Prefix test on character lists. -/
def matchesAtStart : List Char → List Char → Bool
  | [], _ => true
  | _ :: _, [] => false
  | c :: cs, d :: ds => (c == d) && matchesAtStart cs ds

/-- Python `str.startswith(pre)`. -/
def pyStartsWith (s pre : String) : Bool :=
  matchesAtStart pre.data s.data

/-- ASCII lowercasing of one character (the engine tags in play are ASCII). -/
def lowerChar : Char → Char
  | 'A' => 'a'
  | 'B' => 'b'
  | 'C' => 'c'
  | 'D' => 'd'
  | 'E' => 'e'
  | 'F' => 'f'
  | 'G' => 'g'
  | 'H' => 'h'
  | 'I' => 'i'
  | 'J' => 'j'
  | 'K' => 'k'
  | 'L' => 'l'
  | 'M' => 'm'
  | 'N' => 'n'
  | 'O' => 'o'
  | 'P' => 'p'
  | 'Q' => 'q'
  | 'R' => 'r'
  | 'S' => 's'
  | 'T' => 't'
  | 'U' => 'u'
  | 'V' => 'v'
  | 'W' => 'w'
  | 'X' => 'x'
  | 'Y' => 'y'
  | 'Z' => 'z'
  | c => c

/-- Python `str.lower()`. -/
def pyLower (s : String) : String :=
  ⟨s.data.map lowerChar⟩

/-! ## OCR backend post-processing (`src/ocr_model.py`) -/

/-- One line record in an `OCRResult` (text, confidence in the service's
scale, bounding box; the box is opaque pass-through data, modelled as a flat
integer list). -/
structure OCRLine where
  text : String
  confidence : ℚ
  bbox : List ℤ
deriving Repr, DecidableEq

/-- Return value of `OCRProcessor.process_image`. -/
structure OCRResult where
  text : String
  lines : List OCRLine
  average_confidence : ℚ
  engine : String
deriving Repr, DecidableEq

/-- One raw detection from `easyocr.Reader.readtext`: `(bbox, text, confidence)`
in the backend's native scale. -/
structure EasyOCRDetection where
  bbox : List ℤ
  text : String
  confidence : ℚ
deriving Repr, DecidableEq

/-- One box of `pytesseract.image_to_data` output: text, native confidence
(an integer, −1..100), and the box geometry. -/
structure TessBox where
  text : String
  conf : ℤ
  left : ℤ
  top : ℤ
  width : ℤ
  height : ℤ
deriving Repr, DecidableEq

/-- `OCRProcessor._process_with_easyocr` (`src/ocr_model.py` lines 95–126)
applied to the raw reader output: one line per detection, confidences taken
as-is, average = sum/len when non-empty else `0.0`. -/
def process_with_easyocr (results : List EasyOCRDetection) : OCRResult :=
  let texts := results.map (fun r =>
    { text := r.text, confidence := r.confidence, bbox := r.bbox : OCRLine })
  let confidences := results.map (fun r => r.confidence)
  let full_text := results.map (fun r => r.text)
  { text := String.intercalate " " full_text,
    lines := texts,
    average_confidence :=
      if confidences.isEmpty then 0
      else confidences.sum / (confidences.length : ℚ),
    engine := "easyocr" }

/-- The per-box loop of `_process_with_tesseract` (`src/ocr_model.py` lines
145–157): boxes with `int(conf) > 0` contribute a line (confidence divided by
100, bbox `[left, top, left+width, top+height]`) and a confidence entry; the
others are dropped.  Returns (lines, confidences) in input order. -/
def tessLoop : List TessBox → List OCRLine × List ℚ
  | [] => ([], [])
  | b :: rest =>
      let acc := tessLoop rest
      if 0 < b.conf then
        ({ text := b.text, confidence := (b.conf : ℚ) / 100,
           bbox := [b.left, b.top, b.left + b.width, b.top + b.height] } :: acc.1,
         (b.conf : ℚ) / 100 :: acc.2)
      else acc

/-- `OCRProcessor._process_with_tesseract` (`src/ocr_model.py` lines 128–167):
`text` is the stripped `image_to_string` output (external, passed in), the
lines come from the filtering loop, average = sum/len when non-empty else
`0.0`. -/
def process_with_tesseract (text : String) (data : List TessBox) : OCRResult :=
  let acc := tessLoop data
  { text := pyStrip text,
    lines := acc.1,
    average_confidence :=
      if acc.2.isEmpty then 0 else acc.2.sum / (acc.2.length : ℚ),
    engine := "tesseract" }

/-! ## Lemmas about the OCR post-processing -/

lemma tessLoop_fst (data : List TessBox) :
    (tessLoop data).1 = (data.filter (fun b => 0 < b.conf)).map (fun b =>
      { text := b.text, confidence := (b.conf : ℚ) / 100,
        bbox := [b.left, b.top, b.left + b.width, b.top + b.height] }) := by
  induction data with
  | nil => rfl
  | cons b rest ih =>
      by_cases h : 0 < b.conf
      · simp [tessLoop, h, List.filter_cons, ih]
      · simp [tessLoop, h, List.filter_cons, ih]

lemma tessLoop_snd (data : List TessBox) :
    (tessLoop data).2
      = (data.filter (fun b => 0 < b.conf)).map (fun b => (b.conf : ℚ) / 100) := by
  induction data with
  | nil => rfl
  | cons b rest ih =>
      by_cases h : 0 < b.conf
      · simp [tessLoop, h, List.filter_cons, ih]
      · simp [tessLoop, h, List.filter_cons, ih]

lemma tessLoop_snd_eq_map_fst (data : List TessBox) :
    (tessLoop data).2 = (tessLoop data).1.map (fun l => l.confidence) := by
  rw [tessLoop_fst, tessLoop_snd, List.map_map]
  rfl

lemma mean_mem_unit (l : List ℚ) (h : ∀ x ∈ l, 0 ≤ x ∧ x ≤ 1) :
    0 ≤ (if l.isEmpty then 0 else l.sum / (l.length : ℚ)) ∧
    (if l.isEmpty then 0 else l.sum / (l.length : ℚ)) ≤ 1 := by
  cases l with
  | nil => simp
  | cons x xs =>
      have hlen : (0 : ℚ) < ((x :: xs).length : ℚ) := by
        exact_mod_cast Nat.succ_pos xs.length
      have hnonneg : 0 ≤ (x :: xs).sum :=
        List.sum_nonneg (fun y hy => (h y hy).1)
      have hle : (x :: xs).sum ≤ ((x :: xs).length : ℚ) := by
        have := List.sum_le_card_nsmul (x :: xs) 1 (fun y hy => (h y hy).2)
        simpa [nsmul_eq_mul] using this
      have hne : ¬ ((x :: xs).isEmpty = true) := by simp
      constructor
      · rw [if_neg hne]
        positivity
      · rw [if_neg hne]
        exact (div_le_one hlen).mpr hle

lemma isEmpty_map {α β : Type} (f : α → β) (l : List α) :
    (l.map f).isEmpty = l.isEmpty := by
  cases l <;> rfl

lemma tess_conf_mem_unit (data : List TessBox) (hT : ∀ b ∈ data, b.conf ≤ 100) :
    ∀ q ∈ (tessLoop data).2, 0 ≤ q ∧ q ≤ 1 := by
  intro q hq
  rw [tessLoop_snd] at hq
  rcases List.mem_map.mp hq with ⟨b, hb, rfl⟩
  have hbd : b ∈ data := List.mem_of_mem_filter hb
  have hpos : 0 < b.conf := by simpa using List.of_mem_filter hb
  have h100 := hT b hbd
  refine ⟨div_nonneg ?_ (by norm_num), (div_le_one (by norm_num)).mpr ?_⟩
  · exact_mod_cast hpos.le
  · exact_mod_cast h100

/-! ## Claim theorems for the OCR backends -/

/-- C3. For both backends, every per-line confidence and the average
confidence of the returned result lie in [0,1]: the easyocr backend passes
its native [0,1] confidences through unchanged, and the tesseract backend
(native scale 0–100, the kept boxes having positive confidence at most 100)
divides each kept confidence by 100. -/
theorem ocr_confidence_normalized
    (results : List EasyOCRDetection) (tText : String) (data : List TessBox)
    (hE : ∀ r ∈ results, 0 ≤ r.confidence ∧ r.confidence ≤ 1)
    (hT : ∀ b ∈ data, b.conf ≤ 100) :
    (∀ l ∈ (process_with_easyocr results).lines,
        0 ≤ l.confidence ∧ l.confidence ≤ 1) ∧
    0 ≤ (process_with_easyocr results).average_confidence ∧
    (process_with_easyocr results).average_confidence ≤ 1 ∧
    (∀ l ∈ (process_with_tesseract tText data).lines,
        0 ≤ l.confidence ∧ l.confidence ≤ 1) ∧
    0 ≤ (process_with_tesseract tText data).average_confidence ∧
    (process_with_tesseract tText data).average_confidence ≤ 1 ∧
    (∀ l ∈ (process_with_tesseract tText data).lines,
        ∃ b ∈ data, 0 < b.conf ∧ l.confidence = (b.conf : ℚ) / 100) := by
  have hEconf : ∀ q ∈ results.map (fun r => r.confidence), 0 ≤ q ∧ q ≤ 1 := by
    intro q hq
    rcases List.mem_map.mp hq with ⟨r, hr, rfl⟩
    exact hE r hr
  have hEmean := mean_mem_unit (results.map (fun r => r.confidence)) hEconf
  have hTmean := mean_mem_unit (tessLoop data).2 (tess_conf_mem_unit data hT)
  refine ⟨?_, hEmean.1, hEmean.2, ?_, hTmean.1, hTmean.2, ?_⟩
  · intro l hl
    rcases List.mem_map.mp hl with ⟨r, hr, rfl⟩
    exact hE r hr
  · intro l hl
    have hl2 : l.confidence ∈ (tessLoop data).2 := by
      rw [tessLoop_snd_eq_map_fst]
      exact List.mem_map_of_mem _ hl
    exact tess_conf_mem_unit data hT _ hl2
  · intro l hl
    have hl1 : l ∈ (tessLoop data).1 := hl
    rw [tessLoop_fst] at hl1
    rcases List.mem_map.mp hl1 with ⟨b, hb, rfl⟩
    exact ⟨b, List.mem_of_mem_filter hb,
      by simpa using List.of_mem_filter hb, rfl⟩

/-- Witness for C3 at a concrete easyocr detection list and tesseract data
table (including a filtered-out −1 box). -/
theorem ocr_confidence_normalized_witness :
    (∀ l ∈ (process_with_easyocr
        [{ bbox := [0, 0, 4, 4], text := "xin", confidence := 1 }]).lines,
        0 ≤ l.confidence ∧ l.confidence ≤ 1) ∧
    0 ≤ (process_with_easyocr
        [{ bbox := [0, 0, 4, 4], text := "xin", confidence := 1 }]).average_confidence ∧
    (process_with_easyocr
        [{ bbox := [0, 0, 4, 4], text := "xin", confidence := 1 }]).average_confidence ≤ 1 ∧
    (∀ l ∈ (process_with_tesseract " luat "
        [{ text := "luat", conf := 96, left := 0, top := 0, width := 10, height := 12 },
         { text := "", conf := -1, left := 0, top := 0, width := 0, height := 0 }]).lines,
        0 ≤ l.confidence ∧ l.confidence ≤ 1) ∧
    0 ≤ (process_with_tesseract " luat "
        [{ text := "luat", conf := 96, left := 0, top := 0, width := 10, height := 12 },
         { text := "", conf := -1, left := 0, top := 0, width := 0, height := 0 }]).average_confidence ∧
    (process_with_tesseract " luat "
        [{ text := "luat", conf := 96, left := 0, top := 0, width := 10, height := 12 },
         { text := "", conf := -1, left := 0, top := 0, width := 0, height := 0 }]).average_confidence ≤ 1 ∧
    (∀ l ∈ (process_with_tesseract " luat "
        [{ text := "luat", conf := 96, left := 0, top := 0, width := 10, height := 12 },
         { text := "", conf := -1, left := 0, top := 0, width := 0, height := 0 }]).lines,
        ∃ b ∈ [{ text := "luat", conf := 96, left := 0, top := 0, width := 10, height := 12 },
               { text := "", conf := -1, left := 0, top := 0, width := 0, height := 0 }],
          0 < TessBox.conf b ∧ l.confidence = (TessBox.conf b : ℚ) / 100) :=
  ocr_confidence_normalized
    [{ bbox := [0, 0, 4, 4], text := "xin", confidence := 1 }] " luat "
    [{ text := "luat", conf := 96, left := 0, top := 0, width := 10, height := 12 },
     { text := "", conf := -1, left := 0, top := 0, width := 0, height := 0 }]
    (by decide) (by decide)

/-- C9. For both backends the returned `average_confidence` is exactly 0 when
no line survives (no division by zero), and otherwise equals the arithmetic
mean of the per-line confidences of the result. -/
theorem average_confidence_empty_safe
    (results : List EasyOCRDetection) (tText : String) (data : List TessBox) :
    (process_with_easyocr results).average_confidence =
      (if (process_with_easyocr results).lines.isEmpty then 0
       else ((process_with_easyocr results).lines.map (fun l => l.confidence)).sum
              / ((process_with_easyocr results).lines.length : ℚ)) ∧
    (process_with_tesseract tText data).average_confidence =
      (if (process_with_tesseract tText data).lines.isEmpty then 0
       else ((process_with_tesseract tText data).lines.map (fun l => l.confidence)).sum
              / ((process_with_tesseract tText data).lines.length : ℚ)) := by
  constructor
  · simp [process_with_easyocr, List.map_map, Function.comp_def, isEmpty_map,
      List.length_map]
  · simp only [process_with_tesseract, tessLoop_snd_eq_map_fst,
      isEmpty_map, List.length_map]

/-- C10. The tesseract backend keeps exactly the boxes whose native
confidence is positive: boxes with `conf ≤ 0` appear neither in `lines` nor
in the average-confidence computation, and every returned line has
confidence strictly greater than 0. -/
theorem tesseract_filters_nonpositive_conf (tText : String) (data : List TessBox) :
    (process_with_tesseract tText data).lines
        = (data.filter (fun b => 0 < b.conf)).map (fun b =>
            { text := b.text, confidence := (b.conf : ℚ) / 100,
              bbox := [b.left, b.top, b.left + b.width, b.top + b.height] }) ∧
    (∀ l ∈ (process_with_tesseract tText data).lines, 0 < l.confidence) ∧
    (process_with_tesseract tText data).average_confidence =
      (if (data.filter (fun b => 0 < b.conf)).isEmpty then 0
       else ((data.filter (fun b => 0 < b.conf)).map (fun b => (b.conf : ℚ) / 100)).sum
              / ((data.filter (fun b => 0 < b.conf)).length : ℚ)) := by
  refine ⟨tessLoop_fst data, ?_, ?_⟩
  · intro l hl
    have hl1 : l ∈ (tessLoop data).1 := hl
    rw [tessLoop_fst] at hl1
    rcases List.mem_map.mp hl1 with ⟨b, hb, rfl⟩
    have hpos : 0 < b.conf := by simpa using List.of_mem_filter hb
    have : (0 : ℚ) < (b.conf : ℚ) := by exact_mod_cast hpos
    exact div_pos this (by norm_num)
  · simp only [process_with_tesseract, tessLoop_snd, List.length_map,
      isEmpty_map]

/-! ## HTTP layer (`src/api.py`)

HTTP exceptions are modelled as `Except HTTPError`; the external effects
(PIL decode, OCR processor acquisition + processing, model inference) are
passed in as `Except String`-valued functions, a raised Python exception
being the `.error` case. -/

/-- `fastapi.HTTPException`: status code plus detail message. -/
structure HTTPError where
  status : Nat
  detail : String
deriving Repr, DecidableEq

/-- Opaque handle to a decoded PIL image; `pid` models object identity. -/
structure PILImage where
  pid : Nat
deriving Repr, DecidableEq

/-- An uploaded file: the declared content type (absent models a falsy
`file.content_type`) and the raw payload bytes. -/
structure UploadFile where
  content_type : Option String
  data : List Nat
deriving Repr, DecidableEq

/-- The content-type test of `validate_and_load_image` (`src/api.py` line
182): `file.content_type` must be present and start with `image/`. -/
def contentTypeIsImage (ct : Option String) : Bool :=
  match ct with
  | none => false
  | some s => pyStartsWith s "image/"

/-- The status of an endpoint outcome (`none` on success). -/
def statusOf {α : Type} (r : Except HTTPError α) : Option Nat :=
  match r with
  | .ok _ => none
  | .error e => some e.status

/-- `validate_and_load_image` (`src/api.py` lines 168–200): content-type
check (400), then payload read and size check against
`settings.max_upload_size` (413), then the PIL decode attempt (400 on
`UnidentifiedImageError`/`OSError`, modelled by the `imageOpen` parameter
returning `.error`). -/
def validate_and_load_image (max_upload_size : Nat)
    (imageOpen : List Nat → Except String PILImage) (file : UploadFile) :
    Except HTTPError PILImage :=
  if contentTypeIsImage file.content_type = false then
    .error { status := 400, detail := "File must be an image" }
  else
    let image_data := file.data
    if image_data.length > max_upload_size then
      .error { status := 413,
               detail := "File too large. Maximum size: "
                 ++ toString max_upload_size ++ " bytes" }
    else
      match imageOpen image_data with
      | .ok image => .ok image
      | .error e => .error { status := 400, detail := "Invalid image file: " ++ e }

/-- `ocr_upload` (`src/api.py` lines 215–244): validation errors re-raise
unchanged (the bare `except HTTPException: raise`), any other failure of the
processor acquisition/OCR pipeline (`ocrProcess`) becomes a 500. -/
def ocr_upload (max_upload_size : Nat)
    (imageOpen : List Nat → Except String PILImage)
    (ocrProcess : PILImage → Except String OCRResult)
    (file : UploadFile) : Except HTTPError OCRResult :=
  match validate_and_load_image max_upload_size imageOpen file with
  | .error e => .error e
  | .ok image =>
      match ocrProcess image with
      | .ok result => .ok result
      | .error e => .error { status := 500, detail := "OCR processing failed: " ++ e }

/-- `ocr_upload_and_classify` (`src/api.py` lines 247–290): after successful
validation and OCR, the extracted text is classified only when its stripped
form is non-empty, and a classification failure is swallowed (the inner
`except Exception` continues with `classification = None`). -/
def ocr_upload_and_classify (max_upload_size : Nat)
    (imageOpen : List Nat → Except String PILImage)
    (ocrProcess : PILImage → Except String OCRResult)
    (classify : String → Except String ClassificationResult)
    (file : UploadFile) :
    Except HTTPError (OCRResult × Option ClassificationResult) :=
  match validate_and_load_image max_upload_size imageOpen file with
  | .error e => .error e
  | .ok image =>
      match ocrProcess image with
      | .error e => .error { status := 500, detail := "OCR processing failed: " ++ e }
      | .ok ocr_result =>
          let classification : Option ClassificationResult :=
            if pyStrip ocr_result.text ≠ "" then
              match classify ocr_result.text with
              | .ok c => some c
              | .error _ => none
            else none
          .ok (ocr_result, classification)

/-- The `LegalTextClassifier` singleton state seen by the endpoints
(`src/model.py` line 20). -/
structure ClassifierState where
  model_loaded : Bool
deriving Repr, DecidableEq

/-- `LegalTextClassifier.predict` including its guard (`src/model.py` lines
71–72): raises when the model is not loaded, otherwise runs the (external)
inference, whose own failure propagates. -/
def classifierPredict (st : ClassifierState)
    (infer : String → Except String ClassificationResult) (text : String) :
    Except String ClassificationResult :=
  if st.model_loaded then infer text
  else .error "Model not loaded. Call load_model() first."

/-- The `/health` endpoint (`src/api.py` lines 92–102): a `get_model`
failure becomes a 503. -/
def health (get_model : Except String ClassifierState) :
    Except HTTPError (String × Bool) :=
  match get_model with
  | .ok model => .ok ("healthy", model.model_loaded)
  | .error e => .error { status := 503, detail := "Service unhealthy: " ++ e }

/-- The `/predict` endpoint (`src/api.py` lines 105–122): every exception in
the handler body — including a `get_model` failure — is caught by the one
generic handler and becomes a 500. -/
def predict_endpoint (get_model : Except String ClassifierState)
    (infer : String → Except String ClassificationResult) (text : String) :
    Except HTTPError ClassificationResult :=
  match get_model with
  | .error e => .error { status := 500, detail := "Prediction failed: " ++ e }
  | .ok model =>
      match classifierPredict model infer text with
      | .ok result => .ok result
      | .error e => .error { status := 500, detail := "Prediction failed: " ++ e }

/-! ## Lemmas about the HTTP layer -/

lemma validate_error_status (max_upload_size : Nat)
    (imageOpen : List Nat → Except String PILImage) (file : UploadFile)
    (err : HTTPError)
    (hval : validate_and_load_image max_upload_size imageOpen file = .error err) :
    err.status = 400 ∨ err.status = 413 := by
  unfold validate_and_load_image at hval
  split at hval
  · cases hval
    left
    rfl
  · dsimp only at hval
    split at hval
    · cases hval
      right
      rfl
    · split at hval
      · cases hval
      · cases hval
        left
        rfl

lemma ocr_upload_of_validate_error (max_upload_size : Nat)
    (imageOpen : List Nat → Except String PILImage)
    (ocrProcess : PILImage → Except String OCRResult) (file : UploadFile)
    (err : HTTPError)
    (hval : validate_and_load_image max_upload_size imageOpen file = .error err) :
    ocr_upload max_upload_size imageOpen ocrProcess file = .error err := by
  simp [ocr_upload, hval]

lemma combined_of_validate_error (max_upload_size : Nat)
    (imageOpen : List Nat → Except String PILImage)
    (ocrProcess : PILImage → Except String OCRResult)
    (classify : String → Except String ClassificationResult) (file : UploadFile)
    (err : HTTPError)
    (hval : validate_and_load_image max_upload_size imageOpen file = .error err) :
    ocr_upload_and_classify max_upload_size imageOpen ocrProcess classify file
      = .error err := by
  simp [ocr_upload_and_classify, hval]

/-! ## Claim theorems for the HTTP layer -/

/-- C4. In the combined OCR-then-classify endpoint, when validation and OCR
succeed but classification raises, the request still succeeds: the response
carries the OCR result with a `none` classification field, and no error
status is produced. -/
theorem combined_swallows_classify_error (max_upload_size : Nat)
    (imageOpen : List Nat → Except String PILImage)
    (ocrProcess : PILImage → Except String OCRResult)
    (classify : String → Except String ClassificationResult)
    (file : UploadFile) (image : PILImage) (r : OCRResult) (err : String)
    (hval : validate_and_load_image max_upload_size imageOpen file = .ok image)
    (hocr : ocrProcess image = .ok r)
    (htext : pyStrip r.text ≠ "")
    (hfail : classify r.text = .error err) :
    ocr_upload_and_classify max_upload_size imageOpen ocrProcess classify file
        = .ok (r, none) ∧
    statusOf (ocr_upload_and_classify max_upload_size imageOpen ocrProcess
        classify file) = none := by
  have hmain :
      ocr_upload_and_classify max_upload_size imageOpen ocrProcess classify file
        = .ok (r, none) := by
    simp [ocr_upload_and_classify, hval, hocr, htext, hfail]
  exact ⟨hmain, by rw [hmain]; rfl⟩

/-- Witness for C4: decodable upload, OCR extracting "van ban", classifier
raising. -/
theorem combined_swallows_classify_error_witness :
    ocr_upload_and_classify 100 (fun _ => .ok { pid := 0 })
        (fun _ => .ok { text := "van ban", lines := [],
                        average_confidence := 0, engine := "easyocr" })
        (fun _ => .error "model exploded")
        { content_type := some "image/png", data := [1, 2] }
      = .ok ({ text := "van ban", lines := [],
               average_confidence := 0, engine := "easyocr" }, none) ∧
    statusOf (ocr_upload_and_classify 100 (fun _ => .ok { pid := 0 })
        (fun _ => .ok { text := "van ban", lines := [],
                        average_confidence := 0, engine := "easyocr" })
        (fun _ => .error "model exploded")
        { content_type := some "image/png", data := [1, 2] }) = none :=
  combined_swallows_classify_error 100 (fun _ => .ok { pid := 0 })
    (fun _ => .ok { text := "van ban", lines := [],
                    average_confidence := 0, engine := "easyocr" })
    (fun _ => .error "model exploded")
    { content_type := some "image/png", data := [1, 2] }
    { pid := 0 }
    { text := "van ban", lines := [], average_confidence := 0, engine := "easyocr" }
    "model exploded" rfl rfl (by decide) rfl

/-- C5. In the combined endpoint, when the extracted OCR text strips to the
empty string, the classification field is `none` and the classifier is never
invoked: the outcome is the same for every classification function. -/
theorem combined_empty_text_skips_classify (max_upload_size : Nat)
    (imageOpen : List Nat → Except String PILImage)
    (ocrProcess : PILImage → Except String OCRResult)
    (file : UploadFile) (image : PILImage) (r : OCRResult)
    (hval : validate_and_load_image max_upload_size imageOpen file = .ok image)
    (hocr : ocrProcess image = .ok r)
    (htext : pyStrip r.text = "") :
    ∀ classify : String → Except String ClassificationResult,
      ocr_upload_and_classify max_upload_size imageOpen ocrProcess classify file
        = .ok (r, none) := by
  intro classify
  simp [ocr_upload_and_classify, hval, hocr, htext]

/-- Witness for C5: OCR extracting whitespace only; the classifier chosen
would succeed if it were ever called, yet the classification field is
`none`. -/
theorem combined_empty_text_skips_classify_witness :
    ocr_upload_and_classify 100 (fun _ => .ok { pid := 0 })
        (fun _ => .ok { text := "  ", lines := [],
                        average_confidence := 0, engine := "tesseract" })
        (fun _ => .ok { predicted_class := 0, confidence := 1, all_scores := [1] })
        { content_type := some "image/jpeg", data := [7] }
      = .ok ({ text := "  ", lines := [],
               average_confidence := 0, engine := "tesseract" }, none) :=
  combined_empty_text_skips_classify 100 (fun _ => .ok { pid := 0 })
    (fun _ => .ok { text := "  ", lines := [],
                    average_confidence := 0, engine := "tesseract" })
    { content_type := some "image/jpeg", data := [7] } { pid := 0 }
    { text := "  ", lines := [], average_confidence := 0, engine := "tesseract" }
    rfl rfl (by decide)
    (fun _ => .ok { predicted_class := 0, confidence := 1, all_scores := [1] })

/-- C6. Every upload-validation failure is rejected with a client-error
(4xx) status before any model runs: a non-image content type gives 400 and
an oversized payload gives 413 for every decode function (so the size check
precedes any decode attempt), a failing decode gives 400, and any validation
error is returned unchanged by both upload endpoints for every OCR process
and classifier (so neither is ever invoked). -/
theorem upload_validation_rejects_before_models (max_upload_size : Nat)
    (file : UploadFile) :
    (contentTypeIsImage file.content_type = false →
      ∀ imageOpen : List Nat → Except String PILImage,
        validate_and_load_image max_upload_size imageOpen file
          = .error { status := 400, detail := "File must be an image" }) ∧
    (contentTypeIsImage file.content_type = true →
      file.data.length > max_upload_size →
      ∀ imageOpen : List Nat → Except String PILImage,
        validate_and_load_image max_upload_size imageOpen file
          = .error { status := 413,
                     detail := "File too large. Maximum size: "
                       ++ toString max_upload_size ++ " bytes" }) ∧
    (∀ imageOpen : List Nat → Except String PILImage, ∀ msg : String,
      contentTypeIsImage file.content_type = true →
      ¬ file.data.length > max_upload_size →
      imageOpen file.data = .error msg →
      validate_and_load_image max_upload_size imageOpen file
        = .error { status := 400, detail := "Invalid image file: " ++ msg }) ∧
    (∀ imageOpen : List Nat → Except String PILImage, ∀ err : HTTPError,
      validate_and_load_image max_upload_size imageOpen file = .error err →
      400 ≤ err.status ∧ err.status < 500 ∧
      (∀ ocrProcess, ocr_upload max_upload_size imageOpen ocrProcess file
          = .error err) ∧
      (∀ ocrProcess classify,
        ocr_upload_and_classify max_upload_size imageOpen ocrProcess classify file
          = .error err)) := by
  refine ⟨?_, ?_, ?_, ?_⟩
  · intro h imageOpen
    simp [validate_and_load_image, h]
  · intro h hsz imageOpen
    simp [validate_and_load_image, h, hsz]
  · intro imageOpen msg h hsz hio
    simp [validate_and_load_image, h, hsz, hio]
  · intro imageOpen err hval
    have hstat := validate_error_status max_upload_size imageOpen file err hval
    refine ⟨?_, ?_, ?_, ?_⟩
    · rcases hstat with h | h <;> omega
    · rcases hstat with h | h <;> omega
    · intro ocrProcess
      exact ocr_upload_of_validate_error max_upload_size imageOpen ocrProcess
        file err hval
    · intro ocrProcess classify
      exact combined_of_validate_error max_upload_size imageOpen ocrProcess
        classify file err hval

/-- Witness for C6: all three rejection branches at concrete uploads — a
text-file content type (400), an oversized image (413), and an undecodable
image (400) — with the decode and OCR stages instantiated so the discharged
branch hypotheses are evaluated. -/
theorem upload_validation_rejects_before_models_witness :
    validate_and_load_image 10 (fun _ => .ok { pid := 0 })
        { content_type := some "text/plain", data := [1] }
      = .error { status := 400, detail := "File must be an image" } ∧
    validate_and_load_image 1 (fun _ => .ok { pid := 0 })
        { content_type := some "image/png", data := [1, 2, 3] }
      = .error { status := 413,
                 detail := "File too large. Maximum size: 1 bytes" } ∧
    validate_and_load_image 10 (fun _ => .error "cannot identify image file")
        { content_type := some "image/png", data := [1] }
      = .error { status := 400,
                 detail := "Invalid image file: cannot identify image file" } ∧
    ocr_upload 10 (fun _ => .ok { pid := 0 })
        (fun _ => .ok { text := "x", lines := [],
                        average_confidence := 0, engine := "easyocr" })
        { content_type := some "text/plain", data := [1] }
      = .error { status := 400, detail := "File must be an image" } := by
  refine ⟨?_, ?_, ?_, ?_⟩
  · exact (upload_validation_rejects_before_models 10
      { content_type := some "text/plain", data := [1] }).1 (by decide)
      (fun _ => .ok { pid := 0 })
  · have h := (upload_validation_rejects_before_models 1
      { content_type := some "image/png", data := [1, 2, 3] }).2.1 (by decide)
      (by decide) (fun _ => .ok { pid := 0 })
    simpa using h
  · exact (upload_validation_rejects_before_models 10
      { content_type := some "image/png", data := [1] }).2.2.1
      (fun _ => .error "cannot identify image file") "cannot identify image file"
      (by decide) (by decide) rfl
  · exact ((upload_validation_rejects_before_models 10
      { content_type := some "text/plain", data := [1] }).2.2.2
      (fun _ => .ok { pid := 0 })
      { status := 400, detail := "File must be an image" }
      rfl).2.2.1
      (fun _ => .ok { text := "x", lines := [],
                      average_confidence := 0, engine := "easyocr" })

/-- C7 counterexample. With the classifier singleton failing to load, the
`/predict` endpoint reports 500, not the service-unavailable 503 the claim
asserts for every endpoint that needs the model. -/
theorem predict_unavailable_not_503 :
    statusOf (predict_endpoint (.error "load failed")
        (fun _ => .error "no model") "Dieu 1") = some 500 ∧
    statusOf (predict_endpoint (.error "load failed")
        (fun _ => .error "no model") "Dieu 1") ≠ some 503 := by
  constructor
  · rfl
  · decide

/-- C7 amended. When the classifier singleton is unavailable, only the
`/health` endpoint reports a 503; the `/predict` endpoint wraps the same
failure — whether `get_model` raises or the model is simply not loaded — in
a generic 500. -/
theorem unavailable_status_health_503_predict_500 (e : String)
    (infer : String → Except String ClassificationResult) (text : String)
    (st : ClassifierState) (hnl : st.model_loaded = false) :
    health (.error e)
        = .error { status := 503, detail := "Service unhealthy: " ++ e } ∧
    predict_endpoint (.error e) infer text
        = .error { status := 500, detail := "Prediction failed: " ++ e } ∧
    predict_endpoint (.ok st) infer text
        = .error { status := 500,
                   detail := "Prediction failed: "
                     ++ "Model not loaded. Call load_model() first." } := by
  refine ⟨rfl, rfl, ?_⟩
  simp [predict_endpoint, classifierPredict, hnl]

/-- Witness for C7 (amended) at a concrete load failure and a concrete
unloaded classifier. -/
theorem unavailable_status_health_503_predict_500_witness :
    health (.error "load failed")
        = .error { status := 503, detail := "Service unhealthy: load failed" } ∧
    predict_endpoint (.error "load failed") (fun _ => .error "no model") "Dieu 1"
        = .error { status := 500, detail := "Prediction failed: load failed" } ∧
    predict_endpoint (.ok { model_loaded := false })
        (fun _ => .error "no model") "Dieu 1"
        = .error { status := 500,
                   detail := "Prediction failed: "
                     ++ "Model not loaded. Call load_model() first." } :=
  unavailable_status_health_503_predict_500 "load failed"
    (fun _ => .error "no model") "Dieu 1" { model_loaded := false } rfl

/-! ## The OCR-processor singleton cache (`src/ocr_model.py` lines 170–192) -/

/-- `languages or ['vi', 'en']`: Python's falsy default for `None` and for
the empty list. -/
def defaultLangs (languages : Option (List String)) : List String :=
  match languages with
  | none => ["vi", "en"]
  | some [] => ["vi", "en"]
  | some ls => ls

/-- `OCRProcessor` instance attributes (`src/ocr_model.py` lines 27–38): the
engine tag is lowercased at construction and the language list defaulted;
`inited` models `_initialized`; `uid` models Python object identity (each
construction yields a fresh id). -/
structure OCRProcessor where
  engine : String
  languages : List String
  inited : Bool
  uid : Nat
deriving Repr, DecidableEq

/-- `OCRProcessor.__init__`. -/
def mkOCRProcessor (engine : String) (languages : Option (List String))
    (uid : Nat) : OCRProcessor :=
  { engine := pyLower engine,
    languages := defaultLangs languages,
    inited := false,
    uid := uid }

/-- `OCRProcessor.initialize` on the success path (engine available): marks
the processor initialized, idempotently. -/
def initOCRProcessor (p : OCRProcessor) : OCRProcessor :=
  if p.inited then p else { p with inited := true }

/-- The module-global `_ocr_processor` plus the construction counter backing
the object-identity model. -/
structure OCRGlobalState where
  proc : Option OCRProcessor
  nextUid : Nat
deriving Repr, DecidableEq

/-- `get_ocr_processor` (`src/ocr_model.py` lines 174–192) as a state
transformer: a new processor is constructed and initialized when the global
is unset or when the *stored* (lowercased) engine or language list differs
from the arguments; otherwise the cached instance is returned. -/
def get_ocr_processor (engine : String) (languages : Option (List String))
    (st : OCRGlobalState) : OCRProcessor × OCRGlobalState :=
  let langs := defaultLangs languages
  match st.proc with
  | none =>
      let q := initOCRProcessor (mkOCRProcessor engine (some langs) st.nextUid)
      (q, { proc := some q, nextUid := st.nextUid + 1 })
  | some p =>
      if p.engine ≠ engine ∨ p.languages ≠ langs then
        let q := initOCRProcessor (mkOCRProcessor engine (some langs) st.nextUid)
        (q, { proc := some q, nextUid := st.nextUid + 1 })
      else (p, st)

/-! ## Lemmas about the singleton cache -/

lemma defaultLangs_ne_nil (languages : Option (List String)) :
    defaultLangs languages ≠ [] := by
  cases languages with
  | none => simp [defaultLangs]
  | some ls => cases ls <;> simp [defaultLangs]

lemma defaultLangs_idem (languages : Option (List String)) :
    defaultLangs (some (defaultLangs languages)) = defaultLangs languages := by
  cases languages with
  | none => rfl
  | some ls => cases ls <;> rfl

lemma fresh_processor_fields (engine : String) (languages : Option (List String))
    (uid : Nat) :
    (initOCRProcessor (mkOCRProcessor engine languages uid)).engine
        = pyLower engine ∧
    (initOCRProcessor (mkOCRProcessor engine languages uid)).languages
        = defaultLangs languages := by
  constructor <;> rfl

/-! ## Claim theorems for the singleton cache -/

/-- C8 counterexample. With the not-all-lowercase engine string "EasyOCR"
(and default languages, starting from the unset global), the second call in
succession does not return the cached instance: the stored engine was
lowercased by the constructor, the cache comparison uses the raw argument,
and a second, distinct processor is constructed. -/
theorem get_ocr_processor_mixed_case_reconstructs :
    (get_ocr_processor "EasyOCR" none { proc := none, nextUid := 0 }).1.uid = 0 ∧
    (get_ocr_processor "EasyOCR" none
        (get_ocr_processor "EasyOCR" none { proc := none, nextUid := 0 }).2).1.uid
      = 1 ∧
    (get_ocr_processor "EasyOCR" none
        (get_ocr_processor "EasyOCR" none { proc := none, nextUid := 0 }).2).1
      ≠ (get_ocr_processor "EasyOCR" none { proc := none, nextUid := 0 }).1 := by
  refine ⟨rfl, rfl, ?_⟩
  decide

/-- C8 amended. For engine strings that are already lowercase (in particular
the two documented values "easyocr" and "tesseract") and any language list,
calling `get_ocr_processor` twice in succession with the same arguments
returns the same instance and leaves the state — including the construction
counter — unchanged, so the processor is constructed at most once for the
key; and whenever the cached processor already matches the requested engine
and languages, the call returns it without constructing anything. -/
theorem get_ocr_processor_cached_lowercase (engine : String)
    (languages : Option (List String)) (st : OCRGlobalState)
    (hlower : pyLower engine = engine) :
    (get_ocr_processor engine languages
        (get_ocr_processor engine languages st).2).1
      = (get_ocr_processor engine languages st).1 ∧
    (get_ocr_processor engine languages
        (get_ocr_processor engine languages st).2).2
      = (get_ocr_processor engine languages st).2 ∧
    (∀ p, st.proc = some p → p.engine = engine →
      p.languages = defaultLangs languages →
      get_ocr_processor engine languages st = (p, st)) := by
  have hq := fresh_processor_fields engine (some (defaultLangs languages))
    st.nextUid
  rw [defaultLangs_idem] at hq
  have hcached : ∀ p : OCRProcessor, ∀ st2 : OCRGlobalState,
      st2.proc = some p → p.engine = engine →
      p.languages = defaultLangs languages →
      get_ocr_processor engine languages st2 = (p, st2) := by
    intro p st2 hp he hl
    have hcond : ¬ (p.engine ≠ engine ∨ p.languages ≠ defaultLangs languages) := by
      push_neg
      exact ⟨he, hl⟩
    unfold get_ocr_processor
    rw [hp]
    dsimp only
    rw [if_neg hcond]
  have hfirst : ((get_ocr_processor engine languages st).2).proc
      = some (get_ocr_processor engine languages st).1 ∧
      ((get_ocr_processor engine languages st).1).engine = engine ∧
      ((get_ocr_processor engine languages st).1).languages
        = defaultLangs languages := by
    cases hp : st.proc with
    | none =>
        have heq : get_ocr_processor engine languages st
            = (initOCRProcessor (mkOCRProcessor engine
                  (some (defaultLangs languages)) st.nextUid),
               { proc := some (initOCRProcessor (mkOCRProcessor engine
                    (some (defaultLangs languages)) st.nextUid)),
                 nextUid := st.nextUid + 1 }) := by
          unfold get_ocr_processor
          rw [hp]
        rw [heq]
        refine ⟨rfl, ?_, hq.2⟩
        rw [hq.1]
        exact hlower
    | some p =>
        by_cases hkey : p.engine ≠ engine ∨ p.languages ≠ defaultLangs languages
        · have heq : get_ocr_processor engine languages st
              = (initOCRProcessor (mkOCRProcessor engine
                    (some (defaultLangs languages)) st.nextUid),
                 { proc := some (initOCRProcessor (mkOCRProcessor engine
                      (some (defaultLangs languages)) st.nextUid)),
                   nextUid := st.nextUid + 1 }) := by
            unfold get_ocr_processor
            rw [hp]
            dsimp only
            rw [if_pos hkey]
          rw [heq]
          refine ⟨rfl, ?_, hq.2⟩
          rw [hq.1]
          exact hlower
        · push_neg at hkey
          have heq := hcached p st hp hkey.1 hkey.2
          rw [heq]
          exact ⟨hp, hkey.1, hkey.2⟩
  have hsecond := hcached (get_ocr_processor engine languages st).1
    (get_ocr_processor engine languages st).2 hfirst.1 hfirst.2.1 hfirst.2.2
  refine ⟨?_, ?_, fun p hp he hl => hcached p st hp he hl⟩
  · rw [hsecond]
  · rw [hsecond]

/-- Witness for C8 (amended) at the default engine and languages from the
unset global state. -/
theorem get_ocr_processor_cached_lowercase_witness :
    (get_ocr_processor "easyocr" none
        (get_ocr_processor "easyocr" none { proc := none, nextUid := 0 }).2).1
      = (get_ocr_processor "easyocr" none { proc := none, nextUid := 0 }).1 ∧
    (get_ocr_processor "easyocr" none
        (get_ocr_processor "easyocr" none { proc := none, nextUid := 0 }).2).2
      = (get_ocr_processor "easyocr" none { proc := none, nextUid := 0 }).2 ∧
    (∀ p, ({ proc := none, nextUid := 0 } : OCRGlobalState).proc = some p →
      p.engine = "easyocr" → p.languages = defaultLangs none →
      get_ocr_processor "easyocr" none { proc := none, nextUid := 0 }
        = (p, { proc := none, nextUid := 0 })) :=
  get_ocr_processor_cached_lowercase "easyocr" none
    { proc := none, nextUid := 0 } (by decide)

end ProtonxLegal
